import Mathlib

/-!
Verification development for the react-query-grpc-gateway side-effect
propagation core.  The definitions below are a shallow embedding of the
TypeScript source: `queryKey` (src/queryKey.ts), `sideEffect`,
`chainSideEffects` (the side-effect module) and the transport-header merge
performed by `useServiceMutation` / `queryOptions`.

Conventions of the embedding:
 - JavaScript promises that may reject are modelled by values of type
   `Except ε α`; a lifecycle callback is a state transformer
   `CacheState → Except ε α × CacheState` so that cache writes performed
   before a rejection survive it (as they do on the shared query client).
 - `undefined`/absent data is `Option.none`.
 - The type of source requests and target requests is unified into one
   type `ρ` (the TypeScript generics unify exactly this way when `mapKey`
   is omitted); target responses are `τ`, source responses `σ`, errors `ε`.
-/

/-- One element of a react-query cache key array: either the method's name
(a string) or a request value. -/

inductive KeyElem (ρ : Type) where
  | method (name : String)
  | request (r : ρ)
deriving DecidableEq

/-- A cache key: the ordered array returned by `queryKey`. -/

abbrev QKey (ρ : Type) := List (KeyElem ρ)

/-- The string a key element contributes to `Array.prototype.join`:
JavaScript applies `String()` to each element. -/

def keyElemStr [ToString ρ] : KeyElem ρ → String
  | .method n => n
  | .request r => toString r

/-- Embeds `key.join('-')` from the source: the elements' string coercions joined
with a dash. -/

def keyJoin [ToString ρ] (k : QKey ρ) : String :=
  String.intercalate ("-") (k.map keyElemStr)

/-- Embeds `RequestInitWithPathPrefix`: the transport options handed to a
generated method — a header mapping plus the optional URL prefix (the
source's `pathPrefix` field, spelled `prefixPath` here). -/

structure RequestOptions where
  headers : String → Option String
  prefixPath : Option String

/-- A generated service-client method: its `name` property (used for key
derivation) and its transport call `(req, initReq) => Promise<resp>`. -/

structure ServiceMethod (ρ σ ε : Type) where
  name : String
  call : ρ → RequestOptions → Except ε σ

/-- Embeds `queryKey` from src/queryKey.ts: `[method.name]` when the request is
undefined, `[method.name, req]` otherwise. -/

def queryKey (m : ServiceMethod ρ σ ε) (req : Option ρ) : QKey ρ :=
  match req with
  | none => [KeyElem.method m.name]
  | some r => [KeyElem.method m.name, KeyElem.request r]

/-- The refetch scope accepted by the cache store's invalidate operation
(react-query's `refetchType`). -/

inductive RefetchType where
  | active
  | inactive
  | all
  | none'
deriving DecidableEq

/-- An observable operation issued to the cache store; recorded in a log so
ordering claims can be stated. -/

inductive CacheOp (κ τ : Type) where
  | cancel (k : κ)
  | set (k : κ) (v : Option τ)
  | remove (k : κ)
  | invalidate (k : κ) (rt : RefetchType)
deriving DecidableEq

/-- Modelled from the spec: the external Cache Store collaborator (§6).
`data` holds cached values by key, `stale` the invalidation marks, and
`log` the ordered trace of store operations issued so far. -/

structure CacheState (κ τ : Type) where
  data : κ → Option τ
  stale : κ → Bool
  log : List (CacheOp κ τ)

/-- Modelled from the spec: `getData(key) -> value | absent`. -/

def getData (s : CacheState κ τ) (k : κ) : Option τ :=
  s.data k

/-- Modelled from the spec: `setData(key, value|absent)` stores the given
value (or absence) at the key. -/

def setData [DecidableEq κ] (s : CacheState κ τ) (k : κ) (v : Option τ) :
    CacheState κ τ :=
  { data := fun k' => if k' = k then v else s.data k'
    stale := s.stale
    log := s.log ++ [CacheOp.set k v] }

/-- Modelled from the spec: `cancelInFlight(key)`, a best-effort request
with no effect on stored data. -/

def cancelQueries (s : CacheState κ τ) (k : κ) : CacheState κ τ :=
  { s with log := s.log ++ [CacheOp.cancel k] }

/-- Modelled from the spec: `removeEntry(key)` evicts the target cache
entry entirely. -/

def removeQueries [DecidableEq κ] (s : CacheState κ τ) (k : κ) :
    CacheState κ τ :=
  { data := fun k' => if k' = k then none else s.data k'
    stale := fun k' => if k' = k then false else s.stale k'
    log := s.log ++ [CacheOp.remove k] }

/-- Modelled from the spec: `invalidate(key, scope)` marks the target
entry stale and requests a refetch scoped to the given category; the
collaborator's documented scope `none` marks stale without refetching. -/

def invalidateQueries [DecidableEq κ] (s : CacheState κ τ) (k : κ)
    (rt : RefetchType) : CacheState κ τ :=
  { data := s.data
    stale := fun k' => if k' = k then true else s.stale k'
    log := s.log ++ [CacheOp.invalidate k rt] }

/-- The refetches a trace of cache operations has requested: invalidations
whose scope actually refetches (everything except scope `none`). -/

def refetchRequests (l : List (CacheOp κ τ)) : List (κ × RefetchType) :=
  l.filterMap fun op =>
    match op with
    | CacheOp.invalidate k rt =>
        match rt with
        | RefetchType.none' => none
        | _ => some (k, rt)
    | _ => none

/-- Embeds `SideEffectContext = Record<string, unknown>`: a JavaScript object
mapping strings to values.  The outer `Option` is property presence, the
inner one the possibly-`undefined` stored snapshot. -/

def SideEffectContext (τ : Type) := String → Option (Option τ)

/-- The empty object `{}`. -/

def emptyCtx : SideEffectContext τ := fun _ => none

/-- The object literal `{ [k]: v }`. -/

def singletonCtx (k : String) (v : Option τ) : SideEffectContext τ :=
  fun s => if s = k then some v else none

/-- Embeds `Object.assign(base, add)`: properties of `add` (including ones whose
value is `undefined`) overwrite those of `base`. -/

def objAssign (base add : SideEffectContext τ) : SideEffectContext τ :=
  fun s =>
    match add s with
    | some v => some v
    | none => base s

/-- Property read `context[k]`: `undefined` both for a missing property
and for a property stored as `undefined`. -/

def ctxGet (c : SideEffectContext τ) (k : String) : Option τ :=
  match c k with
  | some v => v
  | none => none

/-- The `invalidate` option of a side-effect descriptor:
`boolean | 'active' | 'inactive' | 'all' | 'remove' | 'none'`. -/

inductive Invalidate where
  | bool (b : Bool)
  | active
  | inactive
  | all
  | remove
  | none'
deriving DecidableEq

/-- JavaScript truthiness of the `invalidate` value: `false` is falsy,
every string (including `'none'`) is truthy. -/

def Invalidate.truthy : Invalidate → Bool
  | .bool b => b
  | _ => true

/-- Embeds `typeof invalidate == 'string' ? invalidate : 'active'`: the
refetch scope passed to the invalidate call. -/

def Invalidate.refetchType : Invalidate → RefetchType
  | .bool _ => RefetchType.active
  | .active => RefetchType.active
  | .inactive => RefetchType.inactive
  | .all => RefetchType.all
  | .remove => RefetchType.active
  | .none' => RefetchType.none'

/-- Embeds `SideEffectOptions`: the declarative side-effect descriptor.  `patchFn`
and `updateFn` receive the possibly-absent current cached value. -/

structure SideEffectOptions (ρ σ τ : Type) where
  mapKey : Option (ρ → ρ)
  patchFn : Option (Option τ → ρ → τ)
  updateFn : Option (Option τ → σ → τ)
  invalidate : Option Invalidate

/-- Embeds `SideEffectHandlers`: the three lifecycle callbacks of one handler, as
state transformers over the cache that may reject. -/

structure SideEffectHandlers (ρ σ ε κ τ : Type) where
  onMutate : ρ → CacheState κ τ → Except ε (SideEffectContext τ) × CacheState κ τ
  onSuccess : σ → ρ → SideEffectContext τ → CacheState κ τ →
    Except ε Unit × CacheState κ τ
  onError : ε → ρ → SideEffectContext τ → CacheState κ τ →
    Except ε Unit × CacheState κ τ

/-- The target key computed identically in all three lifecycle callbacks:
`queryKey(m, mapKey ? mapKey(req) : undefined)` where `mapKey` was
destructured with default `(x) => x`, hence always defined. -/

def sideEffectKey (m : ServiceMethod ρ τ ε) (options : SideEffectOptions ρ σ τ)
    (req : ρ) : QKey ρ :=
  queryKey m (some ((options.mapKey.getD (fun x => x)) req))

/-- Embeds `sideEffect(...).onMutate`: cancel in-flight fetches for the target
key, snapshot the current value while applying the optimistic patch (the
`setQueryData` updater), and return the fragment
`{ [key.join('-')]: originalData }`. -/

def sideEffectOnMutate [DecidableEq ρ] [ToString ρ] (m : ServiceMethod ρ τ ε')
    (options : SideEffectOptions ρ σ τ) (req : ρ) (s : CacheState (QKey ρ) τ) :
    Except ε (SideEffectContext τ) × CacheState (QKey ρ) τ :=
  let key := sideEffectKey m options req
  let s1 := cancelQueries s key
  let originalData := getData s1 key
  let s2 := setData s1 key
    (match options.patchFn with
     | some patch => some (patch originalData req)
     | none => originalData)
  (Except.ok (singletonCtx (keyJoin key) originalData), s2)

/-- Embeds `sideEffect(...).onSuccess`: apply `updateFn` when present, then apply
the `invalidate` option — `'remove'` evicts, any other truthy value
invalidates with the corresponding refetch scope, falsy values do
nothing. -/

def sideEffectOnSuccess [DecidableEq ρ] [ToString ρ] (m : ServiceMethod ρ τ ε')
    (options : SideEffectOptions ρ σ τ) (result : σ) (req : ρ)
    (_context : SideEffectContext τ) (s : CacheState (QKey ρ) τ) :
    Except ε Unit × CacheState (QKey ρ) τ :=
  let key := sideEffectKey m options req
  let s1 :=
    match options.updateFn with
    | some update => setData s key (some (update (getData s key) result))
    | none => s
  match options.invalidate with
  | some Invalidate.remove => (Except.ok (), removeQueries s1 key)
  | some inv =>
      if inv.truthy then (Except.ok (), invalidateQueries s1 key inv.refetchType)
      else (Except.ok (), s1)
  | none => (Except.ok (), s1)

/-- Embeds `sideEffect(...).onError`: re-derive the key, look up the snapshot at
`key.join('-')` in the rollback context and write it back (absent when no
snapshot was captured). -/

def sideEffectOnError [DecidableEq ρ] [ToString ρ] (m : ServiceMethod ρ τ ε')
    (options : SideEffectOptions ρ σ τ) (_error : ε) (req : ρ)
    (context : SideEffectContext τ) (s : CacheState (QKey ρ) τ) :
    Except ε Unit × CacheState (QKey ρ) τ :=
  let key := sideEffectKey m options req
  let originalData := ctxGet context (keyJoin key)
  (Except.ok (), setData s key originalData)

/-- Embeds `sideEffect(m, options)`: the lifecycle handler object built from one
descriptor. -/

def sideEffect [DecidableEq ρ] [ToString ρ] (m : ServiceMethod ρ τ ε')
    (options : SideEffectOptions ρ σ τ) :
    SideEffectHandlers ρ σ ε (QKey ρ) τ :=
  { onMutate := sideEffectOnMutate m options
    onSuccess := sideEffectOnSuccess m options
    onError := sideEffectOnError m options }

/-- The loop of `chainSideEffects(...).onMutate`: start from `{}`, run each
handler's `onMutate` in list order, `Object.assign`ing its fragment into
the accumulated context; a rejection aborts the loop. -/

def chainOnMutate (hs : List (SideEffectHandlers ρ σ ε κ τ)) (req : ρ)
    (context : SideEffectContext τ) (s : CacheState κ τ) :
    Except ε (SideEffectContext τ) × CacheState κ τ :=
  match hs with
  | [] => (Except.ok context, s)
  | h :: t =>
      match h.onMutate req s with
      | (Except.ok frag, s') => chainOnMutate t req (objAssign context frag) s'
      | (Except.error e, s') => (Except.error e, s')

/-- The loop of `chainSideEffects(...).onSuccess`: run each handler's
`onSuccess` in list order with the same arguments; a rejection aborts the
loop. -/

def chainOnSuccess (hs : List (SideEffectHandlers ρ σ ε κ τ)) (result : σ)
    (req : ρ) (context : SideEffectContext τ) (s : CacheState κ τ) :
    Except ε Unit × CacheState κ τ :=
  match hs with
  | [] => (Except.ok (), s)
  | h :: t =>
      match h.onSuccess result req context s with
      | (Except.ok _, s') => chainOnSuccess t result req context s'
      | (Except.error e, s') => (Except.error e, s')

/-- The loop of `chainSideEffects(...).onError`: run each handler's
`onError` in list order with the same arguments; a rejection aborts the
loop. -/

def chainOnError (hs : List (SideEffectHandlers ρ σ ε κ τ)) (error : ε)
    (req : ρ) (context : SideEffectContext τ) (s : CacheState κ τ) :
    Except ε Unit × CacheState κ τ :=
  match hs with
  | [] => (Except.ok (), s)
  | h :: t =>
      match h.onError error req context s with
      | (Except.ok _, s') => chainOnError t error req context s'
      | (Except.error e, s') => (Except.error e, s')

/-- Embeds `chainSideEffects(...mutations)`: the composed lifecycle handler. -/

def chainSideEffects (hs : List (SideEffectHandlers ρ σ ε κ τ)) :
    SideEffectHandlers ρ σ ε κ τ :=
  { onMutate := fun req s => chainOnMutate hs req emptyCtx s
    onSuccess := fun result req context s => chainOnSuccess hs result req context s
    onError := fun error req context s => chainOnError hs error req context s }

/-- Extract the context of a successful `onMutate` result (`{}` on a
rejection; used only to state theorems about the success path). -/

def okCtx : Except ε (SideEffectContext τ) → SideEffectContext τ
  | Except.ok c => c
  | Except.error _ => emptyCtx

/-- The fixed default header object `{'Content-Type': 'application/json'}`
spread first into the headers of every transport call. -/

def contentTypeDefault : String → Option String :=
  fun k => if k = "Content-Type" then some ("application/json") else none

/-- JavaScript object spread `{...base, ...extra}` on header maps: keys
set by `extra` win, the rest fall through to `base`. -/

def spreadHeaders (base extra : String → Option String) :
    String → Option String :=
  fun k =>
    match extra k with
    | some v => some v
    | none => base k

/-- The empty transport-options object `{}`. -/

def emptyRequestOptions : RequestOptions :=
  { headers := fun _ => none, prefixPath := none }

/-- The transport options built by `useServiceMutation`'s `mutationFn`:
`{...reqCtx, headers: {'Content-Type': 'application/json',
...reqCtx.headers}}`. -/

def mutationRequestOptions (reqCtx : RequestOptions) : RequestOptions :=
  { reqCtx with headers := spreadHeaders contentTypeDefault reqCtx.headers }

/-- Embeds `useServiceMutation`'s `mutationFn`: call the method with the merged
transport options. -/

def useServiceMutationFn (m : ServiceMethod ρ σ ε) (reqCtx : RequestOptions)
    (req : ρ) : Except ε σ :=
  m.call req (mutationRequestOptions reqCtx)

/-- The transport options built inside `queryOptions`' `queryFn`:
`{...reqInit, headers: {'Content-Type': 'application/json',
...reqInit?.headers}}`, where `reqInit` may be absent. -/

def queryRequestOptions (reqInit : Option RequestOptions) : RequestOptions :=
  { reqInit.getD emptyRequestOptions with
    headers := spreadHeaders contentTypeDefault
      (match reqInit with
       | some ri => ri.headers
       | none => fun _ => none) }

/-- The caller-facing options of `useServiceQuery` / `queryOptions`: an
optional explicit query key and an optional error-recovery handler (which
may resolve to `null`, hence `Option σ`). -/

structure UseServiceQueryOptions (ρ σ ε : Type) where
  queryKey : Option (QKey ρ)
  onError : Option (ε → Option σ)

/-- The object `queryOptions` returns: the resolved query key and the
outcome of running `queryFn` once. -/

structure QueryOptionsResult (ρ σ ε : Type) where
  queryKey : QKey ρ
  queryFn : Except ε (Option σ)

/-- Embeds `resp.catch(options.onError)`: a rejection is handed to the recovery
handler when one is supplied, converting it into a resolved value. -/

def catchWith (resp : Except ε σ) (handler : Option (ε → Option σ)) :
    Except ε (Option σ) :=
  match resp, handler with
  | Except.ok v, _ => Except.ok (some v)
  | Except.error e, some h => Except.ok (h e)
  | Except.error e, none => Except.error e

/-- Embeds `queryOptions(method, req, reqInit, options)`: key defaulting
(`options?.queryKey ?? queryKey(method, req)`) and the transport call with
merged headers, wrapped by the optional recovery handler. -/

def queryOptions (m : ServiceMethod ρ σ ε) (req : ρ)
    (reqInit : Option RequestOptions) (options : UseServiceQueryOptions ρ σ ε) :
    QueryOptionsResult ρ σ ε :=
  { queryKey := options.queryKey.getD (queryKey m (some req))
    queryFn := catchWith (m.call req (queryRequestOptions reqInit)) options.onError }

def c8m : ServiceMethod Nat Nat String :=
  { name := "readUser", call := fun _ _ => Except.ok 0 }

def c8opts : SideEffectOptions Nat Nat Nat :=
  { mapKey := none, patchFn := none, updateFn := none, invalidate := none }

def c10ctx : RequestOptions :=
  { headers := fun k => if k = "Authorization" then some ("Bearer t") else none
    prefixPath := some ("/api") }

def c10qopts : UseServiceQueryOptions Nat Nat String :=
  { queryKey := none, onError := none }

def c1m : ServiceMethod Nat Nat String :=
  { name := "readCount", call := fun _ _ => Except.ok 0 }

def c1opts : SideEffectOptions Nat Nat Nat :=
  { mapKey := none
    patchFn := some (fun old _ => old.getD 0 + 1)
    updateFn := none
    invalidate := none }

def c1s : CacheState (QKey Nat) Nat :=
  { data := fun k => if k = queryKey c1m (some 3) then some 5 else none
    stale := fun _ => false
    log := [] }

def c5opts : SideEffectOptions Nat Nat Nat :=
  { mapKey := none
    patchFn := none
    updateFn := some (fun _ result => result)
    invalidate := some Invalidate.remove }

def c3m : ServiceMethod Nat Nat String :=
  { name := "listThings", call := fun _ _ => Except.ok 0 }

def c3opts : SideEffectOptions Nat Nat Nat :=
  { mapKey := none, patchFn := none, updateFn := none
    invalidate := some Invalidate.none' }

def c3s : CacheState (QKey Nat) Nat :=
  { data := fun _ => none, stale := fun _ => false, log := [] }

def c6m : ServiceMethod Nat Nat String :=
  { name := "readCount", call := fun _ _ => Except.ok 0 }

def c6optsA : SideEffectOptions Nat Nat Nat :=
  { mapKey := none, patchFn := some (fun old _ => old.getD 0 + 1)
    updateFn := none, invalidate := none }

def c6optsB : SideEffectOptions Nat Nat Nat :=
  { mapKey := none, patchFn := some (fun old r => old.getD 0 * 10 + r)
    updateFn := none, invalidate := none }

def c2mA : ServiceMethod String Nat String :=
  { name := "a-b", call := fun _ _ => Except.ok 0 }

def c2mB : ServiceMethod String Nat String :=
  { name := "a", call := fun _ _ => Except.ok 0 }

def c2optsA : SideEffectOptions String Nat Nat :=
  { mapKey := some (fun _ => "c"), patchFn := some (fun _ _ => 11)
    updateFn := none, invalidate := none }

def c2optsB : SideEffectOptions String Nat Nat :=
  { mapKey := some (fun _ => "b-c"), patchFn := some (fun _ _ => 22)
    updateFn := none, invalidate := none }

def c2kA : QKey String := queryKey c2mA (some ("c"))

def c2kB : QKey String := queryKey c2mB (some ("b-c"))

def c2s : CacheState (QKey String) Nat :=
  { data := fun k => if k = c2kA then some 10 else if k = c2kB then some 20 else none
    stale := fun _ => false
    log := [] }

def c2chain : SideEffectHandlers String Nat String (QKey String) Nat :=
  chainSideEffects [sideEffect c2mA c2optsA, sideEffect c2mB c2optsB]

def c2optsC : SideEffectOptions String Nat Nat :=
  { mapKey := some (fun _ => "z"), patchFn := none
    updateFn := none, invalidate := none }

def c4key : QKey Nat := [KeyElem.method ("marker")]

def c4failing : SideEffectHandlers Nat Nat String (QKey Nat) Nat :=
  { onMutate := fun _ s => (Except.ok emptyCtx, s)
    onSuccess := fun _ _ _ s => (Except.ok (), s)
    onError := fun _ _ _ s => (Except.error ("rollback failed"), s) }

def c4marker : SideEffectHandlers Nat Nat String (QKey Nat) Nat :=
  { onMutate := fun _ s => (Except.ok emptyCtx, s)
    onSuccess := fun _ _ _ s => (Except.ok (), s)
    onError := fun _ _ _ s => (Except.ok (), setData s c4key (some 99)) }

def c4s : CacheState (QKey Nat) Nat :=
  { data := fun _ => none, stale := fun _ => false, log := [] }

def c4w1 : SideEffectHandlers Nat Nat String (QKey Nat) Nat :=
  { onMutate := fun _ s => (Except.ok emptyCtx, s)
    onSuccess := fun _ _ _ s => (Except.ok (), s)
    onError := fun _ _ _ s => (Except.ok (), setData s c4key (some 1)) }

/-! ## Theorems -/

theorem getData_setData_self [DecidableEq κ] (s : CacheState κ τ) (k : κ)
    (v : Option τ) : getData (setData s k v) k = v := by
  simp [getData, setData]

theorem getData_cancelQueries (s : CacheState κ τ) (k k' : κ) :
    getData (cancelQueries s k) k' = getData s k' := rfl

theorem ctxGet_singleton_self (k : String) (v : Option τ) :
    ctxGet (singletonCtx k v) k = v := by
  simp [ctxGet, singletonCtx]

/-- C9: the key deriver is pure, total and deterministic: with no request
the key is `[methodId]`; with a request it is `[methodId, request]`; and
repeated derivation from the same inputs yields structurally equal keys. -/
theorem queryKey_derivation (m : ServiceMethod ρ σ ε) (r : ρ) :
    queryKey m none = [KeyElem.method m.name]
    ∧ queryKey m (some r) = [KeyElem.method m.name, KeyElem.request r]
    ∧ queryKey m (some r) = queryKey m (some r) :=
  ⟨rfl, rfl, rfl⟩

/-- C8: omitting `mapKey` makes the target key of all three lifecycle
phases the key derived from the source request verbatim: `mapKey` defaults
to the identity, so the handler coincides with the one built from the same
descriptor with an explicit identity `mapKey`. -/
theorem sideEffect_mapKey_default_identity [DecidableEq ρ] [ToString ρ]
    (m : ServiceMethod ρ τ ε') (opts : SideEffectOptions ρ σ τ) (req : ρ)
    (h : opts.mapKey = none) :
    sideEffectKey m opts req = queryKey m (some req)
    ∧ sideEffect (ε := ε) m opts
        = sideEffect m { opts with mapKey := some (fun x => x) } := by
  constructor
  · simp [sideEffectKey, h]
  · have h1 : sideEffectOnMutate (ε := ε) m opts
        = sideEffectOnMutate m { opts with mapKey := some (fun x => x) } := by
      funext req' s
      simp [sideEffectOnMutate, sideEffectKey, h]
    have h2 : sideEffectOnSuccess (ε := ε) m opts
        = sideEffectOnSuccess m { opts with mapKey := some (fun x => x) } := by
      funext result req' ctx s
      simp [sideEffectOnSuccess, sideEffectKey, h]
    have h3 : sideEffectOnError (ε := ε) m opts
        = sideEffectOnError m { opts with mapKey := some (fun x => x) } := by
      funext e req' ctx s
      simp [sideEffectOnError, sideEffectKey, h]
    simp [sideEffect, h1, h2, h3]

/-- Witness for C8 at a concrete descriptor with `mapKey` omitted. -/
theorem sideEffect_mapKey_default_identity_witness :
    c8opts.mapKey = none
    ∧ sideEffectKey c8m c8opts 5 = queryKey c8m (some 5) :=
  ⟨rfl, (sideEffect_mapKey_default_identity (ε := String) c8m c8opts 5 rfl).1⟩

/-- C10: every query and mutation call passes the method transport options
whose headers are the fixed `Content-Type: application/json` default merged
with the context headers; a context value wins on key conflict and the
default survives whenever the context does not set the key. -/
theorem transport_headers_merge (m : ServiceMethod ρ σ ε)
    (reqCtx : RequestOptions) (req : ρ) (qopts : UseServiceQueryOptions ρ σ ε)
    (k : String) :
    useServiceMutationFn m reqCtx req = m.call req (mutationRequestOptions reqCtx)
    ∧ (queryOptions m req (some reqCtx) qopts).queryFn
        = catchWith (m.call req (queryRequestOptions (some reqCtx))) qopts.onError
    ∧ (queryRequestOptions (some reqCtx)).headers
        = (mutationRequestOptions reqCtx).headers
    ∧ (∀ v, reqCtx.headers k = some v →
        (mutationRequestOptions reqCtx).headers k = some v)
    ∧ (reqCtx.headers k = none →
        (mutationRequestOptions reqCtx).headers k = contentTypeDefault k) := by
  refine ⟨rfl, rfl, rfl, ?_, ?_⟩
  · intro v hv
    simp [mutationRequestOptions, spreadHeaders, hv]
  · intro hv
    simp [mutationRequestOptions, spreadHeaders, hv]

/-- Witness for C10: with a context that sets `Authorization` but not
`Content-Type`, the merged headers keep the context value and retain the
JSON default. -/
theorem transport_headers_merge_witness :
    c10ctx.headers ("Authorization") = some ("Bearer t")
    ∧ (mutationRequestOptions c10ctx).headers ("Authorization") = some ("Bearer t")
    ∧ c10ctx.headers ("Content-Type") = none
    ∧ (mutationRequestOptions c10ctx).headers ("Content-Type")
        = contentTypeDefault ("Content-Type") :=
  ⟨rfl,
   (transport_headers_merge c8m c10ctx 5 c10qopts ("Authorization")).2.2.2.1
     "Bearer t" rfl,
   rfl,
   (transport_headers_merge c8m c10ctx 5 c10qopts ("Content-Type")).2.2.2.2 rfl⟩

/-- C1: when a handler's pre-mutation phase applies `patchFn` (producing a
new value from snapshot V) and the mutation then errors, the post-error
phase restores the entry at the target key to exactly V — including to
absent when the entry was originally absent. -/
theorem sideEffect_rollback_roundtrip [DecidableEq ρ] [ToString ρ]
    (m : ServiceMethod ρ τ ε') (opts : SideEffectOptions ρ σ τ)
    (p : Option τ → ρ → τ) (req : ρ) (e : ε) (s : CacheState (QKey ρ) τ)
    (hp : opts.patchFn = some p) :
    getData (((sideEffect (ε := ε) m opts).onMutate req s).2)
        (sideEffectKey m opts req)
      = some (p (getData s (sideEffectKey m opts req)) req)
    ∧ getData (((sideEffect (ε := ε) m opts).onError e req
          (okCtx ((sideEffect (ε := ε) m opts).onMutate req s).1)
          (((sideEffect (ε := ε) m opts).onMutate req s).2)).2)
        (sideEffectKey m opts req)
      = getData s (sideEffectKey m opts req) := by
  constructor
  · simp [sideEffect, sideEffectOnMutate, hp, getData_setData_self,
      getData_cancelQueries]
  · simp [sideEffect, sideEffectOnMutate, sideEffectOnError, hp, okCtx,
      ctxGet_singleton_self, getData_setData_self, getData_cancelQueries]

/-- Witness for C1: cached value 5 is patched to 6 by pre-mutation, and
post-error restores 5. -/
theorem sideEffect_rollback_roundtrip_witness :
    c1opts.patchFn = some (fun old _ => old.getD 0 + 1)
    ∧ (getData (((sideEffect (ε := String) c1m c1opts).onMutate 3 c1s).2)
          (sideEffectKey c1m c1opts 3)
        = some ((fun (old : Option Nat) (_ : Nat) => old.getD 0 + 1)
            (getData c1s (sideEffectKey c1m c1opts 3)) 3)
      ∧ getData (((sideEffect (ε := String) c1m c1opts).onError ("boom") 3
            (okCtx ((sideEffect (ε := String) c1m c1opts).onMutate 3 c1s).1)
            (((sideEffect (ε := String) c1m c1opts).onMutate 3 c1s).2)).2)
          (sideEffectKey c1m c1opts 3)
        = getData c1s (sideEffectKey c1m c1opts 3)) :=
  ⟨rfl, sideEffect_rollback_roundtrip c1m c1opts _ 3 ("boom") c1s rfl⟩

/-- C5: with both `updateFn` and `invalidate = 'remove'`, post-success
first writes the updated value and then removes the entry, so the final
observable state at the target key is absent. -/
theorem onSuccess_update_then_remove [DecidableEq ρ] [ToString ρ]
    (m : ServiceMethod ρ τ ε') (opts : SideEffectOptions ρ σ τ)
    (u : Option τ → σ → τ) (result : σ) (req : ρ) (ctx : SideEffectContext τ)
    (s : CacheState (QKey ρ) τ)
    (hu : opts.updateFn = some u) (hi : opts.invalidate = some Invalidate.remove) :
    getData (((sideEffect (ε := ε) m opts).onSuccess result req ctx s).2)
        (sideEffectKey m opts req) = none
    ∧ (((sideEffect (ε := ε) m opts).onSuccess result req ctx s).2).log
        = s.log
          ++ [CacheOp.set (sideEffectKey m opts req)
                (some (u (getData s (sideEffectKey m opts req)) result)),
              CacheOp.remove (sideEffectKey m opts req)] := by
  constructor
  · simp [sideEffect, sideEffectOnSuccess, hu, hi, getData, setData, removeQueries]
  · simp [sideEffect, sideEffectOnSuccess, hu, hi, setData, removeQueries]

/-- Witness for C5: after post-success with update-then-remove the entry
at the target key is absent and the log shows the set before the remove. -/
theorem onSuccess_update_then_remove_witness :
    c5opts.updateFn = some (fun _ result => result)
    ∧ c5opts.invalidate = some Invalidate.remove
    ∧ (getData (((sideEffect (ε := String) c1m c5opts).onSuccess 9 3 emptyCtx c1s).2)
          (sideEffectKey c1m c5opts 3) = none
      ∧ (((sideEffect (ε := String) c1m c5opts).onSuccess 9 3 emptyCtx c1s).2).log
          = c1s.log
            ++ [CacheOp.set (sideEffectKey c1m c5opts 3)
                  (some ((fun (_ : Option Nat) (result : Nat) => result)
                    (getData c1s (sideEffectKey c1m c5opts 3)) 9)),
                CacheOp.remove (sideEffectKey c1m c5opts 3)]) :=
  ⟨rfl, rfl, onSuccess_update_then_remove c1m c5opts _ 9 3 emptyCtx c1s rfl rfl⟩

/-- C3 counterexample: with `invalidate: 'none'` the post-success phase
does issue an invalidation (the string `'none'` is truthy and is passed as
the refetch scope), so the target entry becomes marked stale — the claim
says it is left untouched. -/
theorem onSuccess_invalidate_none_counterexample :
    c3s.stale (queryKey c3m (some 7)) = false
    ∧ (((sideEffect (ε := String) c3m c3opts).onSuccess 0 7 emptyCtx c3s).2).stale
        (queryKey c3m (some 7)) = true := by
  constructor
  · rfl
  · decide

/-- C3 amended: with no `updateFn`, an unset `invalidate` leaves the cache
completely unchanged, while `invalidate: 'none'` marks the target entry
stale through an invalidation call scoped `'none'` — without evicting it,
changing its data, or requesting any refetch. -/
theorem onSuccess_invalidate_none_semantics [DecidableEq ρ] [ToString ρ]
    (m : ServiceMethod ρ τ ε') (opts : SideEffectOptions ρ σ τ) (result : σ)
    (req : ρ) (ctx : SideEffectContext τ) (s : CacheState (QKey ρ) τ)
    (hu : opts.updateFn = none) :
    (opts.invalidate = none →
      ((sideEffect (ε := ε) m opts).onSuccess result req ctx s).2 = s)
    ∧ (opts.invalidate = some Invalidate.none' →
        ((((sideEffect (ε := ε) m opts).onSuccess result req ctx s).2).data = s.data
        ∧ (((sideEffect (ε := ε) m opts).onSuccess result req ctx s).2).stale
            (sideEffectKey m opts req) = true
        ∧ refetchRequests ((((sideEffect (ε := ε) m opts).onSuccess result req ctx s).2).log)
            = refetchRequests s.log)) := by
  constructor
  · intro hi
    simp [sideEffect, sideEffectOnSuccess, hu, hi]
  · intro hi
    refine ⟨?_, ?_, ?_⟩ <;>
      simp [sideEffect, sideEffectOnSuccess, hu, hi, invalidateQueries,
        Invalidate.truthy, Invalidate.refetchType, refetchRequests,
        List.filterMap_append]

/-- Witness for C3's amended statement at the concrete `'none'`
descriptor. -/
theorem onSuccess_invalidate_none_semantics_witness :
    c3opts.updateFn = none
    ∧ c3opts.invalidate = some Invalidate.none'
    ∧ ((((sideEffect (ε := String) c3m c3opts).onSuccess 0 7 emptyCtx c3s).2).data
        = c3s.data
      ∧ (((sideEffect (ε := String) c3m c3opts).onSuccess 0 7 emptyCtx c3s).2).stale
          (sideEffectKey c3m c3opts 7) = true
      ∧ refetchRequests ((((sideEffect (ε := String) c3m c3opts).onSuccess 0 7 emptyCtx c3s).2).log)
          = refetchRequests c3s.log) :=
  ⟨rfl, rfl,
   (onSuccess_invalidate_none_semantics c3m c3opts 0 7 emptyCtx c3s rfl).2 rfl⟩

/-- C6: two composed handlers targeting the same key apply their
optimistic patches sequentially in registration order, so after the
composed pre-mutation phase the cached value is B's patch applied to the
result of A's patch. -/
theorem chain_onMutate_order_same_key [DecidableEq ρ] [ToString ρ]
    (mA mB : ServiceMethod ρ τ ε') (oA oB : SideEffectOptions ρ σ τ)
    (pA pB : Option τ → ρ → τ) (req : ρ) (s : CacheState (QKey ρ) τ)
    (hpA : oA.patchFn = some pA) (hpB : oB.patchFn = some pB)
    (hk : sideEffectKey mB oB req = sideEffectKey mA oA req) :
    getData (((chainSideEffects
          [sideEffect (ε := ε) mA oA, sideEffect mB oB]).onMutate req s).2)
        (sideEffectKey mA oA req)
      = some (pB (some (pA (getData s (sideEffectKey mA oA req)) req)) req) := by
  simp [chainSideEffects, chainOnMutate, sideEffect, sideEffectOnMutate,
    hpA, hpB, hk, getData, setData, cancelQueries]

/-- Witness for C6: starting from cached 5, A's increment then B's
`*10 + req` gives 63 for request 3. -/
theorem chain_onMutate_order_same_key_witness :
    c6optsA.patchFn = some (fun old _ => old.getD 0 + 1)
    ∧ c6optsB.patchFn = some (fun old r => old.getD 0 * 10 + r)
    ∧ sideEffectKey c6m c6optsB 3 = sideEffectKey c6m c6optsA 3
    ∧ getData (((chainSideEffects
          [sideEffect (ε := String) c6m c6optsA, sideEffect c6m c6optsB]).onMutate 3 c1s).2)
        (sideEffectKey c6m c6optsA 3)
      = some ((fun (old : Option Nat) (r : Nat) => old.getD 0 * 10 + r)
          (some ((fun (old : Option Nat) (_ : Nat) => old.getD 0 + 1)
            (getData c1s (sideEffectKey c6m c6optsA 3)) 3)) 3) :=
  ⟨rfl, rfl, rfl,
   chain_onMutate_order_same_key c6m c6m c6optsA c6optsB _ _ 3 c1s rfl rfl rfl⟩

/-- C7: for two composed handlers on the same target key, each snapshots
the value it observes at its own turn and the later snapshot overwrites
the earlier one in the merged context; after an error, the composed
rollback therefore restores the key to A's patched value, not to the
original pre-mutation value. -/
theorem chain_rollback_restores_first_patch [DecidableEq ρ] [ToString ρ]
    (mA mB : ServiceMethod ρ τ ε') (oA oB : SideEffectOptions ρ σ τ)
    (pA pB : Option τ → ρ → τ) (req : ρ) (e : ε) (s : CacheState (QKey ρ) τ)
    (hpA : oA.patchFn = some pA) (hpB : oB.patchFn = some pB)
    (hk : sideEffectKey mB oB req = sideEffectKey mA oA req) :
    okCtx (((chainSideEffects
          [sideEffect (ε := ε) mA oA, sideEffect mB oB]).onMutate req s).1)
        (keyJoin (sideEffectKey mA oA req))
      = some (some (pA (getData s (sideEffectKey mA oA req)) req))
    ∧ getData (((chainSideEffects
          [sideEffect (ε := ε) mA oA, sideEffect mB oB]).onError e req
          (okCtx (((chainSideEffects
            [sideEffect (ε := ε) mA oA, sideEffect mB oB]).onMutate req s).1))
          ((((chainSideEffects
            [sideEffect (ε := ε) mA oA, sideEffect mB oB]).onMutate req s)).2)).2)
        (sideEffectKey mA oA req)
      = some (pA (getData s (sideEffectKey mA oA req)) req)
    ∧ (some (pA (getData s (sideEffectKey mA oA req)) req)
          ≠ getData s (sideEffectKey mA oA req) →
        getData (((chainSideEffects
            [sideEffect (ε := ε) mA oA, sideEffect mB oB]).onError e req
            (okCtx (((chainSideEffects
              [sideEffect (ε := ε) mA oA, sideEffect mB oB]).onMutate req s).1))
            ((((chainSideEffects
              [sideEffect (ε := ε) mA oA, sideEffect mB oB]).onMutate req s)).2)).2)
          (sideEffectKey mA oA req)
        ≠ getData s (sideEffectKey mA oA req)) := by
  refine ⟨?_, ?_, ?_⟩
  · simp [chainSideEffects, chainOnMutate, sideEffect, sideEffectOnMutate,
      hpA, hpB, hk, okCtx, objAssign, singletonCtx, emptyCtx, getData,
      setData, cancelQueries]
  · simp [chainSideEffects, chainOnMutate, chainOnError, sideEffect,
      sideEffectOnMutate, sideEffectOnError, hpA, hpB, hk, okCtx, objAssign,
      singletonCtx, emptyCtx, ctxGet, getData, setData, cancelQueries]
  · intro hne
    have h2 : getData (((chainSideEffects
        [sideEffect (ε := ε) mA oA, sideEffect mB oB]).onError e req
        (okCtx (((chainSideEffects
          [sideEffect (ε := ε) mA oA, sideEffect mB oB]).onMutate req s).1))
        ((((chainSideEffects
          [sideEffect (ε := ε) mA oA, sideEffect mB oB]).onMutate req s)).2)).2)
        (sideEffectKey mA oA req)
        = some (pA (getData s (sideEffectKey mA oA req)) req) := by
      simp [chainSideEffects, chainOnMutate, chainOnError, sideEffect,
        sideEffectOnMutate, sideEffectOnError, hpA, hpB, hk, okCtx, objAssign,
        singletonCtx, emptyCtx, ctxGet, getData, setData, cancelQueries]
    rw [h2]
    exact hne

/-- Witness for C7: cached 5, A patches to 6, B to 63; after error the
key is restored to 6 (A's patch result), not to the original 5. -/
theorem chain_rollback_restores_first_patch_witness :
    c6optsA.patchFn = some (fun old _ => old.getD 0 + 1)
    ∧ c6optsB.patchFn = some (fun old r => old.getD 0 * 10 + r)
    ∧ sideEffectKey c6m c6optsB 3 = sideEffectKey c6m c6optsA 3
    ∧ getData (((chainSideEffects
          [sideEffect (ε := String) c6m c6optsA, sideEffect c6m c6optsB]).onError
          "boom" 3
          (okCtx (((chainSideEffects
            [sideEffect (ε := String) c6m c6optsA, sideEffect c6m c6optsB]).onMutate
              3 c1s).1))
          ((((chainSideEffects
            [sideEffect (ε := String) c6m c6optsA, sideEffect c6m c6optsB]).onMutate
              3 c1s)).2)).2)
        (sideEffectKey c6m c6optsA 3)
      = some ((fun (old : Option Nat) (_ : Nat) => old.getD 0 + 1)
          (getData c1s (sideEffectKey c6m c6optsA 3)) 3)
    ∧ getData (((chainSideEffects
          [sideEffect (ε := String) c6m c6optsA, sideEffect c6m c6optsB]).onError
          "boom" 3
          (okCtx (((chainSideEffects
            [sideEffect (ε := String) c6m c6optsA, sideEffect c6m c6optsB]).onMutate
              3 c1s).1))
          ((((chainSideEffects
            [sideEffect (ε := String) c6m c6optsA, sideEffect c6m c6optsB]).onMutate
              3 c1s)).2)).2)
        (sideEffectKey c6m c6optsA 3)
      ≠ getData c1s (sideEffectKey c6m c6optsA 3) :=
  ⟨rfl, rfl, rfl,
   (chain_rollback_restores_first_patch c6m c6m c6optsA c6optsB _ _ 3 ("boom") c1s
     rfl rfl rfl).2.1,
   (chain_rollback_restores_first_patch c6m c6m c6optsA c6optsB _ _ 3 ("boom") c1s
     rfl rfl rfl).2.2 (by decide)⟩

/-- C2 counterexample: the keys `["a-b","c"]` and `["a","b-c"]` are
distinct target cache keys, yet both stringify to `"a-b-c"`, so the two
handlers' snapshots collide in the merged rollback context (the second
overwrites the first) and the composed rollback then restores the first
key to 20 instead of its original 10. -/
theorem chain_distinct_keys_collide_counterexample :
    c2kA ≠ c2kB
    ∧ keyJoin c2kA = keyJoin c2kB
    ∧ getData c2s c2kA = some 10
    ∧ getData c2s c2kB = some 20
    ∧ okCtx ((c2chain.onMutate ("r") c2s).1) (keyJoin c2kA) = some (some 20)
    ∧ getData ((c2chain.onError ("boom") "r"
          (okCtx ((c2chain.onMutate ("r") c2s).1))
          ((c2chain.onMutate ("r") c2s).2)).2) c2kA
        = some 20 := by
  refine ⟨by decide, by decide, by decide, by decide, ?_, ?_⟩
  · decide
  · decide

/-- C2 amended: the merged rollback context is keyed by the `join('-')`
stringification of each handler's target key, not by the key itself: two
composed handlers whose stringified keys differ never collide (each slot
holds that handler's own snapshot, taken at its turn), while handlers
whose stringified keys coincide — possible even for distinct target
keys — merge last-write-wins. -/
theorem chain_ctx_keyed_by_stringified_key [DecidableEq ρ] [ToString ρ]
    (mA mB : ServiceMethod ρ τ ε') (oA oB : SideEffectOptions ρ σ τ)
    (req : ρ) (s : CacheState (QKey ρ) τ) :
    (keyJoin (sideEffectKey mA oA req) ≠ keyJoin (sideEffectKey mB oB req) →
      okCtx (((chainSideEffects
            [sideEffect (ε := ε) mA oA, sideEffect mB oB]).onMutate req s).1)
          (keyJoin (sideEffectKey mA oA req))
        = some (getData s (sideEffectKey mA oA req))
      ∧ okCtx (((chainSideEffects
            [sideEffect (ε := ε) mA oA, sideEffect mB oB]).onMutate req s).1)
          (keyJoin (sideEffectKey mB oB req))
        = some (getData (((sideEffect (ε := ε) mA oA).onMutate req s).2)
            (sideEffectKey mB oB req)))
    ∧ (keyJoin (sideEffectKey mA oA req) = keyJoin (sideEffectKey mB oB req) →
        okCtx (((chainSideEffects
              [sideEffect (ε := ε) mA oA, sideEffect mB oB]).onMutate req s).1)
            (keyJoin (sideEffectKey mB oB req))
          = some (getData (((sideEffect (ε := ε) mA oA).onMutate req s).2)
              (sideEffectKey mB oB req))) := by
  constructor
  · intro h
    constructor
    · simp [chainSideEffects, chainOnMutate, sideEffect, sideEffectOnMutate,
        okCtx, objAssign, singletonCtx, emptyCtx, getData, setData,
        cancelQueries, h]
    · simp [chainSideEffects, chainOnMutate, sideEffect, sideEffectOnMutate,
        okCtx, objAssign, singletonCtx, emptyCtx, getData, setData,
        cancelQueries]
  · intro _
    simp [chainSideEffects, chainOnMutate, sideEffect, sideEffectOnMutate,
      okCtx, objAssign, singletonCtx, emptyCtx, getData, setData,
      cancelQueries]

/-- Witness for C2's amended statement: with stringified keys `"a-b-c"`
and `"a-z"` the two snapshot slots stay separate; with coinciding
stringified keys the later handler's snapshot occupies the shared slot. -/
theorem chain_ctx_keyed_by_stringified_key_witness :
    keyJoin (sideEffectKey c2mA c2optsA ("r")) ≠ keyJoin (sideEffectKey c2mB c2optsC ("r"))
    ∧ okCtx (((chainSideEffects
          [sideEffect (ε := String) c2mA c2optsA, sideEffect c2mB c2optsC]).onMutate
          "r" c2s).1)
        (keyJoin (sideEffectKey c2mA c2optsA ("r")))
      = some (getData c2s (sideEffectKey c2mA c2optsA ("r")))
    ∧ okCtx (((chainSideEffects
          [sideEffect (ε := String) c2mA c2optsA, sideEffect c2mB c2optsC]).onMutate
          "r" c2s).1)
        (keyJoin (sideEffectKey c2mB c2optsC ("r")))
      = some (getData (((sideEffect (ε := String) c2mA c2optsA).onMutate ("r") c2s).2)
          (sideEffectKey c2mB c2optsC ("r")))
    ∧ keyJoin (sideEffectKey c2mA c2optsA ("r")) = keyJoin (sideEffectKey c2mB c2optsB ("r"))
    ∧ okCtx (((chainSideEffects
          [sideEffect (ε := String) c2mA c2optsA, sideEffect c2mB c2optsB]).onMutate
          "r" c2s).1)
        (keyJoin (sideEffectKey c2mB c2optsB ("r")))
      = some (getData (((sideEffect (ε := String) c2mA c2optsA).onMutate ("r") c2s).2)
          (sideEffectKey c2mB c2optsB ("r"))) :=
  ⟨by decide,
   ((chain_ctx_keyed_by_stringified_key c2mA c2mB c2optsA c2optsC ("r") c2s).1
     (by decide)).1,
   ((chain_ctx_keyed_by_stringified_key c2mA c2mB c2optsA c2optsC ("r") c2s).1
     (by decide)).2,
   by decide,
   (chain_ctx_keyed_by_stringified_key c2mA c2mB c2optsA c2optsB ("r") c2s).2
     (by decide)⟩

/-- C4 counterexample: when the first handler's rollback rejects, the
composed post-error phase propagates the rejection and stops — the second
handler (which would have written 99 at its key) never attempts its
rollback. -/
theorem chain_onError_failfast_counterexample :
    ((chainSideEffects [c4failing, c4marker]).onError ("e") 0 emptyCtx c4s).1
      = Except.error ("rollback failed")
    ∧ getData (((chainSideEffects [c4failing, c4marker]).onError ("e") 0 emptyCtx c4s).2)
        c4key = none
    ∧ getData ((c4marker.onError ("e") 0 emptyCtx c4s).2) c4key = some 99 := by
  refine ⟨rfl, rfl, ?_⟩
  simp [c4marker, getData_setData_self]

/-- C4 amended: the composed post-error phase invokes the handlers'
post-error callbacks sequentially in list order; when no handler's
rollback rejects, every handler runs (the final cache state is the left
fold of their effects in registration order), but a rejection propagates
and the remaining handlers are not invoked. -/
theorem chain_onError_in_order_when_ok
    (hs : List (SideEffectHandlers ρ σ ε κ τ)) (e : ε) (req : ρ)
    (ctx : SideEffectContext τ) (s : CacheState κ τ)
    (hok : ∀ h ∈ hs, ∀ s', (h.onError e req ctx s').1 = Except.ok ()) :
    (chainOnError hs e req ctx s).1 = Except.ok ()
    ∧ (chainOnError hs e req ctx s).2
        = hs.foldl (fun st h => (h.onError e req ctx st).2) s := by
  induction hs generalizing s with
  | nil => exact ⟨rfl, rfl⟩
  | cons h t ih =>
      have hh : (h.onError e req ctx s).1 = Except.ok () :=
        hok h (List.mem_cons_self h t) s
      have ht : ∀ h' ∈ t, ∀ s', (h'.onError e req ctx s').1 = Except.ok () :=
        fun h' hm s' => hok h' (List.mem_cons_of_mem h hm) s'
      rcases hx : h.onError e req ctx s with ⟨r, s₂⟩
      have hr : r = Except.ok () := by
        have := hh
        rw [hx] at this
        exact this
      subst hr
      have := ih s₂ ht
      constructor
      · simpa [chainOnError, hx] using this.1
      · simpa [chainOnError, hx] using this.2

/-- Witness for C4's amended statement: with two never-rejecting handlers
the composed rollback succeeds and equals their effects folded in list
order (the marker handler, second in line, writes last). -/
theorem chain_onError_in_order_when_ok_witness :
    (chainOnError [c4w1, c4marker] "e" 0 emptyCtx c4s).1 = Except.ok ()
    ∧ (chainOnError [c4w1, c4marker] "e" 0 emptyCtx c4s).2
        = [c4w1, c4marker].foldl (fun st h => (h.onError ("e") 0 emptyCtx st).2) c4s :=
  chain_onError_in_order_when_ok [c4w1, c4marker] "e" 0 emptyCtx c4s
    (by
      intro h hm s'
      rcases List.mem_cons.mp hm with h1 | h2
      · subst h1; rfl
      · rcases List.mem_cons.mp h2 with h3 | h4
        · subst h3; rfl
        · simp at h4)
